import Mathlib

/-!
Verification development for the line-todo-bot repository (src/app.py, src/models.py).

The repository pairs app.py (header: "SQLAlchemy + Refactored Features - v2 SDK
compatible", written against a task model with a single member_id foreign key)
with models.py (header: "v2.3.0 - Removed Recurring, Added M2M Task-Member
Relationship", whose Task has no member_id column and no member attribute).
The definitions below embed both files faithfully, including the places where
app.py's calls no longer type-check against models.py at runtime; each such
place is documented at its definition.

Strings are modelled as Lean String, character work happens on List Char.
Python regex matching (re.match with its backtracking order: greedy and lazy
quantifiers, optional groups tried present-first) is transliterated into
deterministic parsers whose choice order follows the regex engine's.
Datetime instants are opaque Nat values: no handler in this revision ever
compares a completion instant with a due date.
-/

set_option linter.unusedVariables false

namespace LineTodoBot

/-- Python regex class \s on str: ASCII whitespace [ \t\n\r\x0b\x0c] plus the
Unicode whitespace code points recognised by Python's re module. -/
def isPySpace (c : Char) : Bool :=
  c = ' ' || c = '\t' || c = '\n' || c = '\r' || c = Char.ofNat 11 || c = Char.ofNat 12 ||
  c = Char.ofNat 0x1c || c = Char.ofNat 0x1d || c = Char.ofNat 0x1e || c = Char.ofNat 0x1f ||
  c = Char.ofNat 0x85 || c = Char.ofNat 0xA0 || c = Char.ofNat 0x1680 ||
  (0x2000 ≤ c.toNat && c.toNat ≤ 0x200A) || c = Char.ofNat 0x2028 || c = Char.ofNat 0x2029 ||
  c = Char.ofNat 0x202F || c = Char.ofNat 0x205F || c = Char.ofNat 0x3000

/-- Python regex class \d, restricted to the ASCII digits (the only digits the
commands and tests of this repository use). -/
def isPyDigit (c : Char) : Bool := c.isDigit

/-- Python str.strip() with no argument: drop leading and trailing whitespace. -/
def pyStrip (s : String) : String :=
  String.mk (((s.data.dropWhile isPySpace).reverse.dropWhile isPySpace).reverse)

/-- Value of a run of ASCII digit characters, as Python int() reads it. -/
def natFromDigits (l : List Char) : Nat :=
  l.foldl (fun n c => n * 10 + (c.toNat - '0'.toNat)) 0

/-- Python str[:n] on the character level (used by content previews). -/
def pyTake (s : String) (n : Nat) : String := String.mk (s.data.take n)

/-- Calendar date as produced by datetime.strptime(s, "%Y/%m/%d"). -/
structure Date where
  y : Nat
  m : Nat
  d : Nat
deriving DecidableEq

/-- Gregorian leap-year rule used by Python's datetime module. -/
def isLeapYear (y : Nat) : Bool := y % 4 == 0 && (y % 100 != 0 || y % 400 == 0)

/-- Days in a month, as validated by the datetime constructor. -/
def daysInMonth (y m : Nat) : Nat :=
  if m == 2 then (if isLeapYear y then 29 else 28)
  else if m == 4 || m == 6 || m == 9 || m == 11 then 30
  else 31

/-- Split a token into the three digit runs of the literal pattern
digits '/' digits '/' digits, requiring the token to be consumed entirely
(strptime raises on unconverted trailing data). -/
def splitDateToken (l : List Char) : Option (List Char × List Char × List Char) :=
  let p1 := l.takeWhile isPyDigit
  let r1 := l.dropWhile isPyDigit
  match r1 with
  | '/' :: r1' =>
    let p2 := r1'.takeWhile isPyDigit
    let r2 := r1'.dropWhile isPyDigit
    match r2 with
    | '/' :: r2' =>
      let p3 := r2'.takeWhile isPyDigit
      let r3 := r2'.dropWhile isPyDigit
      if r3 = [] then some (p1, p2, p3) else none
    | _ => none
  | _ => none

/-- datetime.strptime(s, "%Y/%m/%d") as a total function: %Y takes 1-4 digits,
%m and %d take 1-2 digits, and the result must be a real calendar date with
year at least datetime.MINYEAR = 1; otherwise strptime or the datetime
constructor raises ValueError, which parse_date (app.py:509-517) turns into
None. -/
def parseDateStr (s : String) : Option Date :=
  match splitDateToken s.data with
  | some (ys, ms, ds) =>
    if h : (ys ≠ [] ∧ ys.length ≤ 4 ∧ ms ≠ [] ∧ ms.length ≤ 2 ∧ ds ≠ [] ∧ ds.length ≤ 2) then
      let y := natFromDigits ys
      let m := natFromDigits ms
      let d := natFromDigits ds
      if 1 ≤ y ∧ 1 ≤ m ∧ m ≤ 12 ∧ 1 ≤ d ∧ d ≤ daysInMonth y m then some ⟨y, m, d⟩ else none
    else none
  | none => none

/-- parse_date (app.py:509-517): None propagates, otherwise strptime with
"%Y/%m/%d", returning None on ValueError. -/
def parse_date : Option String → Option Date
  | none => none
  | some s => parseDateStr s

/-- Member row (models.py:70-89). created_at (server default now()) is omitted:
no handler or claim reads it. The (name, group_id) pair carries the unique
constraint _member_name_group_uc (models.py:89). -/
structure Member where
  id : Nat
  name : String
  line_user_id : Option String
  group_id : String
deriving DecidableEq

/-- Task row (models.py:94-126). Columns: id, content, status, due_date,
created_at, completed_at, priority. There is no completed_on_time column and
no member_id column in this revision; assignment to members goes through the
task_assignments association table. created_at is modelled as an opaque
creation instant (Nat), completed_at as an opaque instant. -/
structure Task where
  id : Nat
  content : String
  status : String
  due_date : Option Date
  created_at : Nat
  completed_at : Option Nat
  priority : String
deriving DecidableEq

/-- Database state: the members and tasks tables, the task_assignments
association table (models.py:62-67) as (task_id, member_id) pairs, and the
next server-assigned member id. No handler in this revision ever succeeds in
inserting a task (see handle_add_task and handle_batch_add_tasks below), so no
task id counter is needed. -/
structure DB where
  members : List Member
  tasks : List Task
  task_assignments : List (Nat × Nat)
  nextMemberId : Nat
deriving DecidableEq

/-- get_member_by_name_and_group (models.py:142-145): first row whose name and
group_id both match. -/
def get_member_by_name_and_group (db : DB) (name group_id : String) : Option Member :=
  db.members.find? (fun m => m.name == name && m.group_id == group_id)

/-- create_member (models.py:174-188): inserts a new member row and commits.
The database's unique constraint on (name, group_id) makes the insert raise
when a row with the same pair exists; create_member rolls back and re-raises,
modelled as the error case. Both call sites pass line_user_id=None. -/
def create_member (db : DB) (name group_id : String) (line_user_id : Option String) :
    Except Unit (DB × Member) :=
  if db.members.any (fun m => m.name == name && m.group_id == group_id) then .error ()
  else
    let m : Member := ⟨db.nextMemberId, name, line_user_id, group_id⟩
    .ok ({ db with members := db.members ++ [m], nextMemberId := db.nextMemberId + 1 }, m)

/-- Find-or-create sequence used by handle_add_task (app.py:554-563) and
handle_batch_add_tasks (app.py:1080-1089): look up by (name, group) first and
only create when the lookup found nothing. -/
def findOrCreateMember (db : DB) (name group_id : String) : Except Unit (DB × Member) :=
  match get_member_by_name_and_group db name group_id with
  | some m => .ok (db, m)
  | none => create_member db name group_id none

/-- get_task_by_id (models.py:151-156): first row with the given primary key. -/
def get_task_by_id (db : DB) (task_id : Nat) : Option Task :=
  db.tasks.find? (fun t => t.id == task_id)

/-- Sort key type for the pending-task queries: due date ascending with NULLs
last (WithTop), then priority DESCENDING as text (order dual of the
character-list lexicographic order, the order PostgreSQL applies to the
priority strings), then created_at ascending. -/
abbrev TaskKey := (WithTop (Nat ×ₗ Nat ×ₗ Nat)) ×ₗ ((List Char)ᵒᵈ ×ₗ Nat)

/-- Chronological key of a calendar date: lexicographic (year, month, day). -/
def dateKey (d : Date) : Nat ×ₗ Nat ×ₗ Nat := toLex (d.y, toLex (d.m, d.d))

/-- due_date with NULLS LAST: absent dates sort after every present date. -/
def dueKey : Option Date → WithTop (Nat ×ₗ Nat ×ₗ Nat)
  | none => ⊤
  | some d => (dateKey d : Nat ×ₗ Nat ×ₗ Nat)

/-- The ORDER BY clause of both pending-task queries (models.py:164 and
models.py:172): due_date.asc().nulls_last(), priority.desc(),
created_at.asc(). -/
def sortKey (t : Task) : TaskKey :=
  toLex (dueKey t.due_date, toLex (OrderDual.toDual t.priority.data, t.created_at))

/-- Comparison realising the ORDER BY of the pending-task queries. -/
def taskLE (a b : Task) : Prop := sortKey a ≤ sortKey b

instance : DecidableRel taskLE :=
  fun a b => inferInstanceAs (Decidable (sortKey a ≤ sortKey b))

instance : IsTotal Task taskLE := ⟨fun a b => le_total (sortKey a) (sortKey b)⟩

instance : IsTrans Task taskLE := ⟨fun _ _ _ h1 h2 => le_trans h1 h2⟩

/-- Filter of get_pending_tasks_by_group_id (models.py:169-172):
Task.members.any(Member.group_id == group_id), i.e. some member row of the
group is joined to the task through task_assignments. -/
def taskAssignedInGroup (db : DB) (group_id : String) (t : Task) : Bool :=
  db.members.any (fun m => m.group_id == group_id && db.task_assignments.contains (t.id, m.id))

/-- Filter of get_pending_tasks_by_member_id (models.py:161-164):
Task.members.any(id=member_id). -/
def taskAssignedToMember (db : DB) (member_id : Nat) (t : Task) : Bool :=
  db.members.any (fun m => m.id == member_id && db.task_assignments.contains (t.id, m.id))

/-- get_pending_tasks_by_group_id (models.py:166-172): pending tasks with at
least one assigned member in the group, ordered by the ORDER BY clause
embodied in taskLE. SQL ORDER BY fixes the result only up to that key order;
any sort realises it. -/
def get_pending_tasks_by_group_id (db : DB) (group_id : String) : List Task :=
  List.insertionSort taskLE
    (db.tasks.filter (fun t => t.status == "pending" && taskAssignedInGroup db group_id t))

/-- get_pending_tasks_by_member_id (models.py:158-164): pending tasks assigned
to the member, same ORDER BY. -/
def get_pending_tasks_by_member_id (db : DB) (member_id : Nat) : List Task :=
  List.insertionSort taskLE
    (db.tasks.filter (fun t => t.status == "pending" && taskAssignedToMember db member_id t))

/-! ## Command grammar

The regex patterns of app.py:100-115 are transliterated into deterministic
parsers on List Char. Backtracking choices are explored in the regex engine's
order: greedy quantifiers longest-first, lazy quantifiers shortest-first,
optional groups present-first. Dots in the patterns do not match a newline
(re.DOTALL is set only for the batch-add pattern). -/

/-- Trailing-date token shape (\d{4}/\d{1,2}/\d{1,2}) consuming the whole
input: exactly four digits, a slash, one or two digits, a slash, one or two
digits. -/
def isStructuralDate (l : List Char) : Bool :=
  match splitDateToken l with
  | some (p1, p2, p3) =>
    p1.length == 4 && (p2.length == 1 || p2.length == 2) && (p3.length == 1 || p3.length == 2)
  | none => false

/-- Attempt of the optional date tail (?:\s+(date))?$ ( (?:\s*(date))?$ for the
edit pattern): the remaining input must be a whitespace run (nonempty iff
reqSpace) followed by a structural date token reaching the end. The date token
starts with a digit, so the whitespace run is exactly the maximal whitespace
prefix and the decomposition is unique. -/
def dateTail (reqSpace : Bool) (rest : List Char) : Option (List Char) :=
  let ws := rest.takeWhile isPySpace
  let r := rest.dropWhile isPySpace
  if (!reqSpace || ws != []) && isStructuralDate r then some r else none

/-- Lazy-content loop of (.+?)(?:\s+(date))?$ : contents are tried shortest
first; at each length the optional date branch is tried before the bare
end-of-input branch; a newline stops the search because . does not match it. -/
def cdGo (reqSpace : Bool) (acc : List Char) (rest : List Char) :
    Option (List Char × Option (List Char)) :=
  match rest with
  | [] => some (acc.reverse, none)
  | c :: rest' =>
    match dateTail reqSpace rest with
    | some d => some (acc.reverse, some d)
    | none => if c = '\n' then none else cdGo reqSpace (c :: acc) rest'

/-- (.+?)(?:\s+(date))?$ on the remaining input: at least one content
character, then the optional trailing date. -/
def contentDate (reqSpace : Bool) (r : List Char) : Option (List Char × Option (List Char)) :=
  match r with
  | [] => none
  | c :: rest => if c = '\n' then none else cdGo reqSpace [c] rest

/-- Literal alternation !(?:低|普通|高): the priority tag including the bang. -/
def tagSplit (l : List Char) : Option (List Char × List Char) :=
  match l with
  | '!' :: '低' :: rest => some (['!', '低'], rest)
  | '!' :: '普' :: '通' :: rest => some (['!', '普', '通'], rest)
  | '!' :: '高' :: rest => some (['!', '高'], rest)
  | _ => none

/-- Greedy \s+ after the priority tag: try consuming wsLen characters of the
whitespace run, longest first, down to one. -/
def tryTagWs (reqSpace : Bool) (wsLen : Nat) (ws rest1 : List Char) :
    Option (List Char × Option (List Char)) :=
  match wsLen with
  | 0 => none
  | Nat.succ n =>
    match contentDate reqSpace (ws.drop (Nat.succ n) ++ rest1) with
    | some cd => some cd
    | none => tryTagWs reqSpace n ws rest1

/-- (?:(!(?:低|普通|高))\s+)?(.+?)(?:\s+(date))?$ : the optional priority-tag
group is tried present-first; on failure the whole group is skipped and the
content starts at the tag. -/
def suffixParse (reqSpace : Bool) (r : List Char) :
    Option (Option (List Char) × List Char × Option (List Char)) :=
  let noTag := (contentDate reqSpace r).map (fun cd => (none, cd.1, cd.2))
  match tagSplit r with
  | none => noTag
  | some (tag, rest0) =>
    let ws := rest0.takeWhile isPySpace
    let rest1 := rest0.dropWhile isPySpace
    if ws = [] then noTag
    else
      match tryTagWs reqSpace ws.length ws rest1 with
      | some cd => some (some tag, cd.1, cd.2)
      | none => noTag

/-- Greedy \s+ between the mention (or task id) and the rest of the pattern:
longest whitespace prefix first, shorter on failure; unconsumed whitespace is
then available to the content. -/
def trySuffixWs (reqSpace : Bool) (wsLen : Nat) (ws rest : List Char) :
    Option (Option (List Char) × List Char × Option (List Char)) :=
  match wsLen with
  | 0 => none
  | Nat.succ n =>
    match suffixParse reqSpace (ws.drop (Nat.succ n) ++ rest) with
    | some out => some out
    | none => trySuffixWs reqSpace n ws rest

/-- Captured arguments of ADD_TASK_PATTERN: group(1) the single mention name,
group(2) the optional priority tag, group(3) the content, group(4) the
optional trailing date token. -/
structure AddArgs where
  memberName : String
  tag : Option String
  content : String
  dateStr : Option String
deriving DecidableEq

/-- re.match of ADD_TASK_PATTERN (app.py:101):
#新增\s+@(\S+)\s+(?:(!(?:低|普通|高))\s+)?(.+?)(?:\s+(\d{4}/\d{1,2}/\d{1,2}))?$
The single \S+ mention is the maximal nonspace run after the at sign; it must
be followed by at least one whitespace character. -/
def addMatch (s : String) : Option AddArgs :=
  match s.data with
  | '#' :: '新' :: '增' :: r0 =>
    let ws1 := r0.takeWhile isPySpace
    let r1 := r0.dropWhile isPySpace
    if ws1 = [] then none
    else
      match r1 with
      | '@' :: r2 =>
        let name := r2.takeWhile (fun c => !isPySpace c)
        let r3 := r2.dropWhile (fun c => !isPySpace c)
        if name = [] then none
        else
          let ws2 := r3.takeWhile isPySpace
          let r4 := r3.dropWhile isPySpace
          if ws2 = [] then none
          else
            match trySuffixWs true ws2.length ws2 r4 with
            | some (tag, content, dstr) =>
              some ⟨String.mk name, tag.map String.mk, String.mk content, dstr.map String.mk⟩
            | none => none
      | _ => none
  | _ => none

/-- Captured arguments of EDIT_TASK_PATTERN: group(1) the numeric task id,
group(2) the optional priority tag, group(3) the content, group(4) the
optional trailing date token. -/
structure EditArgs where
  taskId : Nat
  tag : Option String
  content : String
  dateStr : Option String
deriving DecidableEq

/-- re.match of EDIT_TASK_PATTERN (app.py:105):
#修改\s+T-(\d+)\s+(?:(!(?:低|普通|高))\s+)?(.+?)(?:\s*(\d{4}/\d{1,2}/\d{1,2}))?$
Identical to the add suffix except the date may follow the content without
whitespace (\s* instead of \s+). -/
def editMatch (s : String) : Option EditArgs :=
  match s.data with
  | '#' :: '修' :: '改' :: r0 =>
    let ws1 := r0.takeWhile isPySpace
    let r1 := r0.dropWhile isPySpace
    if ws1 = [] then none
    else
      match r1 with
      | 'T' :: '-' :: r2 =>
        let digits := r2.takeWhile isPyDigit
        let r3 := r2.dropWhile isPyDigit
        if digits = [] then none
        else
          let ws2 := r3.takeWhile isPySpace
          let r4 := r3.dropWhile isPySpace
          if ws2 = [] then none
          else
            match trySuffixWs false ws2.length ws2 r4 with
            | some (tag, content, dstr) =>
              some ⟨natFromDigits digits, tag.map String.mk, String.mk content,
                    dstr.map String.mk⟩
            | none => none
      | _ => none
  | _ => none

/-- re.match of COMPLETE_TASK_PATTERN (app.py:102): #完成\s+T-(\d+)$ . -/
def completeMatch (s : String) : Option Nat :=
  match s.data with
  | '#' :: '完' :: '成' :: r0 =>
    let ws := r0.takeWhile isPySpace
    let r1 := r0.dropWhile isPySpace
    if ws = [] then none
    else
      match r1 with
      | 'T' :: '-' :: r2 =>
        let ds := r2.takeWhile isPyDigit
        let r3 := r2.dropWhile isPyDigit
        if ds = [] || r3 != [] then none else some (natFromDigits ds)
      | _ => none
  | _ => none

/-- Backtracking of \s*\n in BATCH_ADD_TASK_PATTERN: \s* is greedy, so the
literal newline binds to the last newline of the whitespace run after the
mention that still leaves a nonempty remainder for (.+) (with re.DOTALL).
Candidate newline positions are tried from the end of the run backwards. -/
def tryNLGo (ws rest : List Char) : Nat → Option (List Char)
  | 0 =>
    let rem := ws.drop 1 ++ rest
    if ws.get? 0 == some '\n' && rem != [] then some rem else none
  | Nat.succ j =>
    let rem := ws.drop (j + 2) ++ rest
    if ws.get? (j + 1) == some '\n' && rem != [] then some rem
    else tryNLGo ws rest j

/-- re.match of BATCH_ADD_TASK_PATTERN (app.py:109) with re.DOTALL:
#批量新增\s+@(\S+)\s*\n(.+)$ ; returns the mention name and the raw text of
the task lines. -/
def batchMatch (s : String) : Option (String × String) :=
  match s.data with
  | '#' :: '批' :: '量' :: '新' :: '增' :: r0 =>
    let ws1 := r0.takeWhile isPySpace
    let r1 := r0.dropWhile isPySpace
    if ws1 = [] then none
    else
      match r1 with
      | '@' :: r2 =>
        let name := r2.takeWhile (fun c => !isPySpace c)
        let r3 := r2.dropWhile (fun c => !isPySpace c)
        if name = [] then none
        else
          let ws := r3.takeWhile isPySpace
          let rest := r3.dropWhile isPySpace
          if ws.length = 0 then none
          else
            match tryNLGo ws rest (ws.length - 1) with
            | some tasksText => some (String.mk name, String.mk tasksText)
            | none => none
      | _ => none
  | _ => none

/-! ## Command handlers

Replies are modelled as an inductive carrying exactly the data the Python
f-strings interpolate; the doc comment of each constructor quotes the message
it stands for. -/

/-- Reply payloads of handle_batch_add_tasks. -/
inductive BatchReply where
  /-- The format help text sent when no task line is present (app.py:1056-1078). -/
  | usage
  /-- "自動建立成員 ... 失敗，無法新增任務。" (app.py:1088). -/
  | memberCreateFailed (name : String)
  /-- Batch result (app.py:1199-1243): the member name, the success summaries
  in order, and the failed lines as (original line, reason) in order. -/
  | result (memberName : String) (successes : List String)
      (failures : List (String × String))
deriving DecidableEq

/-- Reply payloads of the handlers modelled here. -/
inductive Reply where
  /-- "新增任務失敗：缺少必要參數" (app.py:536). -/
  | missingParams
  /-- "日期格式不正確，請使用 YYYY/MM/DD 格式。" (app.py:551). -/
  | dateFormatError
  /-- "自動建立成員 ... 失敗，無法新增任務。" (app.py:562). -/
  | memberCreateFailed (name : String)
  /-- "新增任務失敗 (內部錯誤)，請稍後再試。" (app.py:585). -/
  | addInternalError
  /-- "❌ 找不到ID為 T-... 的任務。" (app.py:597). -/
  | notFound (task_id : Nat)
  /-- "ℹ️ 任務 T-... (...) 已經是完成狀態。" (app.py:602), carrying the
  15-character content preview it interpolates. -/
  | alreadyCompleted (task_id : Nat) (preview : String)
  /-- "❌ 更新任務 T-... 狀態失敗 (內部錯誤)。" (app.py:617). -/
  | completeUpdateInternalError (task_id : Nat)
  /-- Reply of handle_batch_add_tasks, wrapped. -/
  | batch (r : BatchReply)
  /-- Commands of app.py:248-295 not modelled here (list, delete, edit,
  detail, draw-lots, random-pick, recurring, guided flow, help, and the
  silent no-command fallthrough); no theorem in this file dispatches to
  them. -/
  | otherCommand
deriving DecidableEq

/-- Priority derived from the optional tag in handle_add_task (app.py:539-546):
"low" when the tag contains 低, "high" when it contains 高, otherwise
"normal" (including when no tag was given). -/
def addPriority : Option String → String
  | none => "normal"
  | some t => if t.data.contains '低' then "low"
              else if t.data.contains '高' then "high"
              else "normal"

/-- Priority update in handle_edit_task (app.py:745-752): a present tag maps
exactly as in handle_add_task (the explicit else branch covers !普通); when no
tag is given, updates carries no priority key and the stored priority is left
as it was. -/
def editPriorityUpdate : Option String → String → String
  | none, old => old
  | some t, _ => if t.data.contains '低' then "low"
                 else if t.data.contains '高' then "high"
                 else "normal"

/-- Parameter names of models.create_task (models.py:190). -/
def create_task_params : List String :=
  ["db", "members", "content", "due_date", "priority", "status"]

/-- Keyword-argument names used at the create_task call site of
handle_add_task (app.py:566): member_id is passed, but create_task has no
such parameter, so Python raises TypeError before the function body runs. -/
def add_create_task_kwargs : List String := ["member_id", "content", "due_date", "priority"]

/-- Attribute names of the Task declarative class (models.py:94-118): the
mapped columns plus the members relationship. member_id was removed in
v2.3.0 (models.py:97). -/
def task_model_attrs : List String :=
  ["id", "content", "status", "due_date", "created_at", "completed_at", "priority", "members"]

/-- Keyword-argument names of the Task(...) construction inside
handle_batch_add_tasks (app.py:1146-1152); SQLAlchemy's declarative
constructor raises TypeError on any keyword that is not a class attribute. -/
def batch_task_ctor_kwargs : List String :=
  ["member_id", "content", "due_date", "priority", "status"]

/-- Python accepts a keyword call iff every keyword names a parameter (for a
plain function) or an attribute (for the declarative constructor). -/
def kwargsAccepted (params kwargs : List String) : Bool := kwargs.all params.contains

/-- handle_add_task (app.py:526-589). Control flow, in source order: missing
parameters (empty member name or empty stripped content, app.py:534-537);
priority tag mapping (app.py:539-546, with no further effect because no task
is ever stored, see below); date parsing with rejection of a present but
unparsable token before any store access (app.py:548-552); member
find-or-create (app.py:554-563, committing the member row); finally the
create_task call (app.py:566) raises TypeError because it passes member_id to
a function whose parameters are create_task_params, the except-branch at
app.py:582-585 rolls back (a no-op for the already committed member) and
replies with the internal error, so no task row is ever inserted. -/
def handle_add_task (db : DB) (group_id : String) (a : AddArgs) : DB × Reply :=
  let task_content := pyStrip a.content
  if a.memberName = "" ∨ task_content = "" then (db, Reply.missingParams)
  else
    let priority := addPriority a.tag
    let due_date := parse_date a.dateStr
    if a.dateStr.isSome ∧ due_date.isNone then (db, Reply.dateFormatError)
    else
      match findOrCreateMember db a.memberName group_id with
      | .error _ => (db, Reply.memberCreateFailed a.memberName)
      | .ok (db1, _member) => (db1, Reply.addInternalError)

/-- handle_complete_task (app.py:591-619). Look up by id (not found → error
naming the id); an already completed task is reported informationally with a
15-character content preview and nothing is written (app.py:601-602); the
commented-out permission check (app.py:598-600) means no caller or group is
ever rejected. Otherwise status and completed_at are set and committed
(app.py:605-608); building the success reply then dereferences task.member
(app.py:609), an attribute the v2.3.0 Task no longer has, so AttributeError
is caught at app.py:614-617 and the reply is the internal error while the
committed update stands (the rollback at app.py:616 follows the commit and
undoes nothing). -/
def handle_complete_task (db : DB) (completer_user_id : String) (task_id : Nat) (now : Nat) :
    DB × Reply :=
  match get_task_by_id db task_id with
  | none => (db, Reply.notFound task_id)
  | some task =>
    if task.status == "completed" then
      (db, Reply.alreadyCompleted task_id (pyTake task.content 15))
    else
      ({ db with tasks := db.tasks.map (fun t =>
           if t.id == task_id then { t with status := "completed", completed_at := some now }
           else t) },
       Reply.completeUpdateInternalError task_id)

/-- Python str.split. Restricted to the newline separator used at
app.py:1054. -/
def splitOnNL (l : List Char) : List (List Char) :=
  match l with
  | [] => [[]]
  | '\n' :: rest => [] :: splitOnNL rest
  | c :: rest =>
    match splitOnNL rest with
    | [] => [[c]]
    | h :: t => (c :: h) :: t

/-- Leftmost match of re.search((?:^|\s)(\d{4}/\d{1,2}/\d{1,2})$, content)
(app.py:1122): either the whole content is a structural date (the ^ branch at
position zero), or the date is the suffix after some whitespace character;
candidate start positions are scanned left to right. Returns
(content[:match.start()], the date token). -/
def findTrailingDate (l : List Char) : Option (List Char × List Char) :=
  if isStructuralDate l then some ([], l)
  else go [] l
where
  go (pre : List Char) : List Char → Option (List Char × List Char)
  | [] => none
  | c :: rest =>
    if isPySpace c && isStructuralDate rest then some (pre.reverse, rest)
    else go (c :: pre) rest

/-- Per-line priority-tag parse of handle_batch_add_tasks (app.py:1106-1117):
re.match(!(低|普通|高)\s+(.+)$, line) with its greedy backtracking; on no
match the whole line is the content and the priority stays "normal". Returns
(priority, content characters before stripping). -/
def batchLineSplit (line : List Char) : String × List Char :=
  match tagSplit line with
  | some (tag, rest0) =>
    let ptag := tag.drop 1
    let prio := if ptag = ['低'] then "low" else if ptag = ['高'] then "high" else "normal"
    let ws := rest0.takeWhile isPySpace
    let rest1 := rest0.dropWhile isPySpace
    if ws = [] then ("normal", line)
    else if rest1 ≠ [] then (prio, rest1)
    else if 2 ≤ ws.length then (prio, ws.drop (ws.length - 1))
    else ("normal", line)
  | none => ("normal", line)

/-- Outcome of one batch line after app.py:1097-1165. -/
inductive LineOutcome where
  /-- The line was recorded in failed_lines_info with the given reason. -/
  | failed (line err : String)
  /-- The line parsed; content, due date and priority as extracted. (In this
  revision the subsequent Task construction still fails, see
  handle_batch_add_tasks.) -/
  | lineOk (line content : String) (due : Option Date) (priority : String)
deriving DecidableEq

/-- Parsing steps of one iteration of the batch loop (app.py:1097-1139):
priority tag at the start, structural date at the end (semantic failure
recorded as 日期格式錯誤), then the empty-content check, which overwrites a
date error when both apply (app.py:1136-1137 runs after app.py:1129-1131). -/
def processBatchLine (line : String) : LineOutcome :=
  let (priority, contentChars) := batchLineSplit line.data
  let content0 := pyStrip (String.mk contentChars)
  match findTrailingDate content0.data with
  | some (pre, dchars) =>
    let dstr := String.mk dchars
    let content1 := pyStrip (String.mk pre)
    if content1 = "" then LineOutcome.failed line "任務內容為空"
    else
      match parseDateStr dstr with
      | none => LineOutcome.failed line ("日期格式錯誤 (" ++ dstr ++ ")")
      | some d => LineOutcome.lineOk line content1 (some d) priority
  | none =>
    if content0 = "" then LineOutcome.failed line "任務內容為空"
    else LineOutcome.lineOk line content0 none priority

/-- handle_batch_add_tasks (app.py:1049-1243). The task text is stripped and
split into nonempty stripped lines (app.py:1052-1054); an empty list yields
the usage reply; the member is found or created once (app.py:1080-1089,
committing it). Each line is then processed independently: parse failures go
to failed_lines_info with their reason; for every line that parses, the
Task(member_id=..., ...) construction at app.py:1146-1152 raises TypeError
(member_id is not among task_model_attrs in the v2.3.0 model), which the
except-branch at app.py:1162-1165 records as 內部錯誤 (TypeError) for that
line. tasks_to_add therefore stays empty, the insert block at
app.py:1168-1197 is skipped, final_summaries is empty, and no task row is
ever inserted. -/
def handle_batch_add_tasks (db : DB) (group_id memberName tasksTextRaw : String) :
    DB × BatchReply :=
  let tasksText := pyStrip tasksTextRaw
  let task_lines := ((splitOnNL tasksText.data).map (fun l => pyStrip (String.mk l))).filter
    (fun l => l ≠ "")
  if task_lines = [] then (db, BatchReply.usage)
  else
    match findOrCreateMember db memberName group_id with
    | .error _ => (db, BatchReply.memberCreateFailed memberName)
    | .ok (db1, member) =>
      let failures := task_lines.map (fun line =>
        match processBatchLine line with
        | LineOutcome.failed l err => (l, err)
        | LineOutcome.lineOk l _ _ _ => (l, "內部錯誤 (TypeError)"))
      (db1, BatchReply.result member.name [] failures)

/-- Source of a LINE message event: a group, a multi-person room, or a
one-to-one conversation with a user. -/
inductive Source where
  | group (group_id : String)
  | room (room_id : String)
  | user (user_id : String)

/-- Conversation context extraction of handle_text_message (app.py:200-206):
groups and rooms yield their identifier, a one-to-one source yields none. -/
def sourceGroupId : Source → Option String
  | Source.group g => some g
  | Source.room r => some r
  | Source.user _ => none

/-- Command dispatch of handle_text_message (app.py:230-295) for a caller with
no active conversation session (the in-memory UserSessions store starts
empty). The patterns carry mutually exclusive literal command keywords, so
the source's full match order (add, complete, list, delete, edit, detail,
draw, pick, batch, ...) is preserved by testing only the three handlers the
claims exercise and collapsing every other branch into Reply.otherCommand;
no theorem in this file dispatches a text of one of those other commands. -/
def processGroupCommand (db : DB) (group_id user_id text : String) (now : Nat) : DB × Reply :=
  match addMatch text with
  | some a => handle_add_task db group_id a
  | none =>
    match completeMatch text with
    | some task_id => handle_complete_task db user_id task_id now
    | none =>
      match batchMatch text with
      | some (name, tasksText) =>
        let out := handle_batch_add_tasks db group_id name tasksText
        (out.1, Reply.batch out.2)
      | none => (db, Reply.otherCommand)

/-- handle_text_message (app.py:196-295): the incoming text is stripped; a
message whose source is neither a group nor a room is ignored outright —
the handler returns at app.py:208-214 before any command matching, sending no
reply and touching no data (the reply in that branch is commented out). -/
def handle_text_message (db : DB) (src : Source) (user_id text : String) (now : Nat) :
    DB × Option Reply :=
  let t := pyStrip text
  match sourceGroupId src with
  | none => (db, none)
  | some gid =>
    let out := processGroupCommand db gid user_id t now
    (out.1, some out.2)

/-! ## Concrete instances used by the counterexamples and witnesses -/

/-- Empty store. -/
def emptyDB : DB := ⟨[], [], [], 1⟩

/-- Store holding exactly the member created by find-or-create from the empty
store. -/
def oneMemberDB : DB := ⟨[⟨1, "小明", none, "G1"⟩], [], [], 2⟩

/-- The member row of oneMemberDB. -/
def firstMember : Member := ⟨1, "小明", none, "G1"⟩

/-- Pending task with a due date, for the completion claims. -/
def c1Task : Task := ⟨1, "報告", "pending", some ⟨2025, 1, 10⟩, 0, none, "normal"⟩

/-- Store holding c1Task. -/
def c1DB : DB := ⟨[], [c1Task], [], 1⟩

/-- Completed task whose content is longer than the 15-character preview. -/
def c4Task : Task :=
  ⟨1, "報告書一二三四五六七八九十甲乙丙丁", "completed", none, 0, some 3, "normal"⟩

/-- Store holding c4Task. -/
def c4DB : DB := ⟨[], [c4Task], [], 1⟩

/-- Member of group G1 for the ordering counterexample. -/
def c5Member : Member := ⟨1, "小明", none, "G1"⟩

/-- Earlier-created pending task, due 2025/01/10, priority high. -/
def c5TaskA : Task := ⟨1, "早的", "pending", some ⟨2025, 1, 10⟩, 0, none, "high"⟩

/-- Later-created pending task, same due date, priority normal. -/
def c5TaskB : Task := ⟨2, "晚的", "pending", some ⟨2025, 1, 10⟩, 1, none, "normal"⟩

/-- Store with both ordering-counterexample tasks assigned to c5Member. -/
def c5DB : DB := ⟨[c5Member], [c5TaskA, c5TaskB], [(1, 1), (2, 1)], 2⟩

/-- Member of group G1 for the permission counterexample. -/
def c6Member : Member := ⟨1, "小明", none, "G1"⟩

/-- Pending task assigned to c6Member, i.e. owned by group G1. -/
def c6Task : Task := ⟨1, "買菜", "pending", none, 0, none, "normal"⟩

/-- Store for the permission counterexample. -/
def c6DB : DB := ⟨[c6Member], [c6Task], [(1, 1)], 2⟩

/-! ## Helper lemmas -/

/-- Every element kept by takeWhile satisfies the predicate. -/
theorem all_takeWhile {α : Type} (p : α → Bool) (l : List α) :
    (l.takeWhile p).all p = true := by
  induction l with
  | nil => rfl
  | cons a t ih =>
    by_cases hpa : p a = true
    · simp [List.takeWhile_cons, hpa, ih]
    · simp [List.takeWhile_cons, hpa]

/-- The call handle_add_task makes at app.py:566 does not fit the signature of
models.create_task (models.py:190): Python raises TypeError before the
function body runs, so the task-creation branch of handle_add_task can never
insert a row. -/
theorem add_create_task_call_rejected :
    kwargsAccepted create_task_params add_create_task_kwargs = false := by decide

/-- The Task construction of handle_batch_add_tasks (app.py:1146-1152) passes
the keyword member_id, which the v2.3.0 Task class no longer has: the
declarative constructor raises TypeError for every parsed batch line. -/
theorem batch_task_ctor_call_rejected :
    kwargsAccepted task_model_attrs batch_task_ctor_kwargs = false := by decide

/-- A text matched by the complete pattern is not matched by the add pattern:
the literal keywords differ at the second character. -/
theorem addMatch_none_of_complete (s : String) (n : Nat) (h : completeMatch s = some n) :
    addMatch s = none := by
  unfold completeMatch at h
  unfold addMatch
  split at h
  · rename_i heq
    rw [heq]
    rfl
  · simp at h

/-! ## C1 — completion and the on-time flag -/

/-- C1, counterexample. The claim states that completing a pending task also
computes and persists completed_on_time (true at instant 2025/01/09 for a due
date of 2025/01/10, false at 2025/01/11). In the code, completing c1Task (due
2025/01/10) at the two instants produces stored records that are identical
except for completed_at itself: only status and completed_at are written, the
Task model (models.py:94-103) has no completed_on_time column, and no
comparison with the due date happens anywhere in handle_complete_task. -/
theorem C1_cex :
    (handle_complete_task c1DB "U1" 1 20250109).1.tasks
      = [{ c1Task with status := "completed", completed_at := some 20250109 }]
  ∧ (handle_complete_task c1DB "U1" 1 20250111).1.tasks
      = [{ c1Task with status := "completed", completed_at := some 20250111 }] := by
  exact ⟨by decide, by decide⟩

/-- C1 (amended): handling the complete command for a stored task that is not
already completed sets its status to "completed" and its completed_at to the
current instant, commits exactly that, and changes nothing else; no
completed_on_time value is computed or persisted (the model has no such
field). The user-visible reply is an internal error because the success reply
dereferences the removed Task.member attribute (app.py:609) after the
commit. -/
theorem C1_thm (db : DB) (u : String) (task_id now : Nat) (t : Task)
    (h1 : get_task_by_id db task_id = some t) (h2 : t.status ≠ "completed") :
    handle_complete_task db u task_id now =
      ({ db with tasks := db.tasks.map (fun x =>
           if x.id == task_id then { x with status := "completed", completed_at := some now }
           else x) },
       Reply.completeUpdateInternalError task_id) := by
  have hb : (t.status == "completed") = false := by
    simpa using h2
  unfold handle_complete_task
  rw [h1]
  simp [hb]

/-- C1, witness: the amended theorem applied to c1DB at instant 5. -/
theorem C1_wit :
    get_task_by_id c1DB 1 = some c1Task ∧ c1Task.status ≠ "completed" ∧
    handle_complete_task c1DB "U1" 1 5 =
      ({ c1DB with tasks := c1DB.tasks.map (fun x =>
           if x.id == 1 then { x with status := "completed", completed_at := some 5 }
           else x) },
       Reply.completeUpdateInternalError 1) :=
  ⟨by decide, by decide, C1_thm c1DB "U1" 1 5 c1Task (by decide) (by decide)⟩

/-! ## C2 — add command in a private conversation -/

/-- C2, counterexample. The claim states that an Add command in a private
one-to-one conversation creates a task with private ownership under the
caller's identifier. In the code, a message from a user source is ignored
before any command matching (app.py:208-214): the store is unchanged — no
task, no member — and no reply is sent. -/
theorem C2_cex :
    handle_text_message emptyDB (Source.user "U1") "U1" "#新增 @小明 買午餐 2025/06/01" 0
      = (emptyDB, none) := rfl

/-- C2 (amended): every message arriving from a private one-to-one source is
ignored entirely — handle_text_message returns before command matching with
the store untouched and no reply; only group and room sources are processed.
The Task model has no private-ownership field at all. -/
theorem C2_thm (db : DB) (uid user_id text : String) (now : Nat) :
    handle_text_message db (Source.user uid) user_id text now = (db, none) := rfl

/-! ## C3 — mention parsing -/

/-- C3, counterexample. The claim states that mention parsing collects all at
mentions and returns the set of distinct names, so that "@A @B @A" yields the
assignee set with exactly A and B. In the code, ADD_TASK_PATTERN captures a
single leading mention: parsing yields assignee "A" alone and leaves "@B @A"
inside the content; no set of names is ever computed. -/
theorem C3_cex :
    addMatch "#新增 @A @B @A 買菜" = some ⟨"A", none, "@B @A 買菜", none⟩ := by decide

/-- C3 (amended): the add pattern extracts exactly one assignee mention — the
maximal nonempty run of non-whitespace after the first at sign; any later at
tokens remain part of the content. Formally, every successful parse returns a
nonempty, whitespace-free single member name. -/
theorem C3_thm (s : String) (a : AddArgs) (h : addMatch s = some a) :
    a.memberName ≠ "" ∧ a.memberName.data.all (fun c => !isPySpace c) = true := by
  unfold addMatch at h
  split at h
  · dsimp only at h
    split at h
    · simp at h
    · split at h
      · split at h
        · simp at h
        · rename_i hname
          split at h
          · simp at h
          · split at h
            · injection h with h
              subst h
              refine ⟨?_, all_takeWhile _ _⟩
              intro hc
              exact hname (by simpa using congrArg String.data hc)
            · simp at h
      · simp at h
  · simp at h

/-- C3, witness: the amended theorem applied to a concrete add command. -/
theorem C3_wit :
    addMatch "#新增 @小明 買菜" = some (⟨"小明", none, "買菜", none⟩ : AddArgs) ∧
    ((⟨"小明", none, "買菜", none⟩ : AddArgs).memberName ≠ "" ∧
      (⟨"小明", none, "買菜", none⟩ : AddArgs).memberName.data.all
        (fun c => !isPySpace c) = true) :=
  ⟨by decide, C3_thm "#新增 @小明 買菜" ⟨"小明", none, "買菜", none⟩ (by decide)⟩

/-! ## C4 — completing an already completed task -/

/-- C4: handling the complete command for a task whose status is already
"completed" returns the informational already-completed reply — not an error —
echoing (a 15-character preview of) the current content, and leaves the store
exactly as it was: status and completed_at keep their prior values. -/
theorem C4_thm (db : DB) (u : String) (task_id now : Nat) (t : Task)
    (h1 : get_task_by_id db task_id = some t) (h2 : t.status = "completed") :
    handle_complete_task db u task_id now
      = (db, Reply.alreadyCompleted task_id (pyTake t.content 15)) := by
  have hb : (t.status == "completed") = true := by simpa using h2
  unfold handle_complete_task
  rw [h1]
  simp [hb]

/-- C4, witness: the theorem applied to c4DB. -/
theorem C4_wit :
    get_task_by_id c4DB 1 = some c4Task ∧ c4Task.status = "completed" ∧
    handle_complete_task c4DB "U9" 1 77
      = (c4DB, Reply.alreadyCompleted 1 (pyTake c4Task.content 15)) :=
  ⟨by decide, rfl, C4_thm c4DB "U9" 1 77 c4Task (by decide) rfl⟩

/-! ## C5 — ordering of the pending-task queries -/

/-- C5, counterexample. The claim states that ties on the due date are broken
by creation time ascending regardless of any other attribute. In c5DB both
pending tasks share the due date 2025/01/10, c5TaskA was created first, yet
the group query returns the later-created c5TaskB first: the ORDER BY clause
(models.py:172) puts priority.desc() between the due date and created_at, and
the string "normal" sorts after "high". -/
theorem C5_cex :
    get_pending_tasks_by_group_id c5DB "G1" = [c5TaskB, c5TaskA]
  ∧ c5TaskA.created_at < c5TaskB.created_at
  ∧ c5TaskA.due_date = c5TaskB.due_date := by
  exact ⟨by decide, by decide, by decide⟩

/-- C5 (amended): both pending-task queries return exactly the pending tasks
passing their assignment filter, ordered by due date ascending with absent
dates last, then priority descending in string order, then creation time
ascending (the order embodied in taskLE); only for equal due dates and equal
priorities does the earlier-created task come first. -/
theorem C5_thm (db : DB) (group_id : String) (member_id : Nat) :
    (get_pending_tasks_by_group_id db group_id).Sorted taskLE
  ∧ (∀ t, t ∈ get_pending_tasks_by_group_id db group_id ↔
        (t ∈ db.tasks ∧ t.status = "pending" ∧ taskAssignedInGroup db group_id t = true))
  ∧ (get_pending_tasks_by_member_id db member_id).Sorted taskLE
  ∧ (∀ t, t ∈ get_pending_tasks_by_member_id db member_id ↔
        (t ∈ db.tasks ∧ t.status = "pending" ∧ taskAssignedToMember db member_id t = true)) := by
  refine ⟨List.sorted_insertionSort _ _, fun t => ?_,
          List.sorted_insertionSort _ _, fun t => ?_⟩
  · rw [get_pending_tasks_by_group_id, (List.perm_insertionSort _ _).mem_iff,
        List.mem_filter, Bool.and_eq_true, beq_iff_eq]
  · rw [get_pending_tasks_by_member_id, (List.perm_insertionSort _ _).mem_iff,
        List.mem_filter, Bool.and_eq_true, beq_iff_eq]

/-! ## C6 — permission check on complete -/

/-- C6, counterexample. The claim states that completing a task owned by a
different group than the caller's conversation returns a permission error and
performs no mutation. In the code the permission check is commented out
(app.py:598-600) and the complete handler is not even given the conversation
group: completing group G1's task from a conversation in group G2 commits the
status change and returns the internal-error reply, not a permission error. -/
theorem C6_cex :
    processGroupCommand c6DB "G2" "U2" "#完成 T-1" 99 =
      ({ c6DB with tasks := [{ c6Task with status := "completed", completed_at := some 99 }] },
       Reply.completeUpdateInternalError 1) := by decide

/-- C6 (amended): the complete handler performs no permission check at all —
its outcome is independent of both the caller identity and the conversation
group; any existing task can be completed from any context. -/
theorem C6_thm (db : DB) (g g' u u' text : String) (now : Nat) (n : Nat)
    (h : completeMatch text = some n) :
    processGroupCommand db g u text now = processGroupCommand db g' u' text now := by
  unfold processGroupCommand
  rw [addMatch_none_of_complete text n h, h]
  rfl

/-- C6, witness: the amended theorem at a concrete complete command. -/
theorem C6_wit :
    completeMatch "#完成 T-7" = some 7 ∧
    processGroupCommand emptyDB "GA" "U1" "#完成 T-7" 0
      = processGroupCommand emptyDB "GB" "U2" "#完成 T-7" 0 :=
  ⟨by decide, C6_thm emptyDB "GA" "GB" "U1" "U2" "#完成 T-7" 0 7 (by decide)⟩

/-! ## C7 — structurally valid but semantically invalid dates -/

/-- C7: an add command whose trailing date token matches the structural
pattern but is not a valid calendar date (such as 2025/13/45) is rejected by
handle_add_task with the date-format error before any store access: the store
is returned unchanged — no task and no member is persisted. The date check
(app.py:548-552) precedes the member find-or-create (app.py:554-563). -/
theorem C7_thm (db : DB) (group_id : String) (a : AddArgs) (ds : String)
    (h1 : a.memberName ≠ "") (h2 : pyStrip a.content ≠ "")
    (h3 : a.dateStr = some ds) (h4 : isStructuralDate ds.data = true)
    (h5 : parseDateStr ds = none) :
    handle_add_task db group_id a = (db, Reply.dateFormatError) := by
  unfold handle_add_task
  rw [if_neg (by exact fun hor => hor.elim h1 h2)]
  rw [if_pos (by rw [h3]; exact ⟨rfl, by simp [parse_date, h5]⟩)]

/-- C7, witness: the date 2025/13/45 is structurally valid, semantically
invalid, and the full pipeline — pattern match, then handler — rejects it on
the empty store without creating anything. -/
theorem C7_wit :
    addMatch "#新增 @小明 買菜 2025/13/45"
      = some (⟨"小明", none, "買菜", some "2025/13/45"⟩ : AddArgs) ∧
    handle_add_task emptyDB "G1" ⟨"小明", none, "買菜", some "2025/13/45"⟩
      = (emptyDB, Reply.dateFormatError) :=
  ⟨by decide,
   C7_thm emptyDB "G1" ⟨"小明", none, "買菜", some "2025/13/45"⟩ "2025/13/45"
     (by decide) (by decide) rfl (by decide) (by decide)⟩

/-! ## C8 — batch add -/

/-- C8: the claim (and the spec) state that batch lines failing to parse are
reported per line while every successfully parsed line is persisted as a
pending task — with three lines of which line 2 is a bare date token, tasks
are created for lines 1 and 3. Evaluating the code on exactly that input:
line 2 is indeed reported as empty-content, but lines 1 and 3 are reported as
內部錯誤 (TypeError) and the store ends with no task at all, because
handle_batch_add_tasks constructs Task(member_id=...) (app.py:1147) against
the v2.3.0 model that removed the member_id column (models.py:97), so every
parsed line raises TypeError inside the per-line try block. -/
theorem C8_thm :
    (processGroupCommand emptyDB "G1" "U1" "#批量新增 @小明\n買菜\n2025/01/01\n洗衣" 0).2
      = Reply.batch (BatchReply.result "小明" []
          [("買菜", "內部錯誤 (TypeError)"), ("2025/01/01", "任務內容為空"),
           ("洗衣", "內部錯誤 (TypeError)")])
  ∧ (processGroupCommand emptyDB "G1" "U1" "#批量新增 @小明\n買菜\n2025/01/01\n洗衣" 0).1.tasks
      = [] := by
  exact ⟨by decide, by decide⟩

/-! ## C9 — member find-or-create -/

/-- C9: member find-or-create is referentially stable and idempotent — if a
first invocation for (name, group) returns a member and a store, invoking it
again on that store returns the very same member (in particular the same
identifier) and the unchanged store, so no second row is ever created; the
returned member is a row of the store. The lookup (models.py:142-145) runs
before any insert, and create_member's insert is guarded by the (name,
group_id) unique constraint. -/
theorem C9_thm (db : DB) (name group_id : String) (db1 : DB) (m1 : Member)
    (h : findOrCreateMember db name group_id = .ok (db1, m1)) :
    findOrCreateMember db1 name group_id = .ok (db1, m1) ∧ m1 ∈ db1.members := by
  unfold findOrCreateMember at h ⊢
  cases hfind : get_member_by_name_and_group db name group_id with
  | some m =>
    rw [hfind] at h
    simp only [Except.ok.injEq, Prod.mk.injEq] at h
    obtain ⟨rfl, rfl⟩ := h
    rw [hfind]
    exact ⟨rfl, List.mem_of_find?_eq_some hfind⟩
  | none =>
    rw [hfind] at h
    unfold create_member at h
    have hany : db.members.any (fun m => m.name == name && m.group_id == group_id) = false := by
      rw [List.any_eq_false]
      intro m hm
      exact List.find?_eq_none.mp hfind m hm
    rw [if_neg (by simp [hany])] at h
    simp only [Except.ok.injEq, Prod.mk.injEq] at h
    obtain ⟨rfl, rfl⟩ := h
    have hfind1 : get_member_by_name_and_group
        { db with members := db.members ++ [⟨db.nextMemberId, name, none, group_id⟩],
                  nextMemberId := db.nextMemberId + 1 } name group_id
        = some ⟨db.nextMemberId, name, none, group_id⟩ := by
      unfold get_member_by_name_and_group at hfind ⊢
      simp only [List.find?_append, hfind, Option.none_or]
      simp [List.find?]
    rw [hfind1]
    exact ⟨rfl, by simp⟩

/-- C9, witness: find-or-create run twice from the empty store. -/
theorem C9_wit :
    findOrCreateMember emptyDB "小明" "G1" = .ok (oneMemberDB, firstMember) ∧
    (findOrCreateMember oneMemberDB "小明" "G1" = .ok (oneMemberDB, firstMember) ∧
      firstMember ∈ oneMemberDB.members) :=
  ⟨rfl, C9_thm emptyDB "小明" "G1" oneMemberDB firstMember rfl⟩

/-! ## C10 — the priority tag -/

/-- C10, counterexample. The claim states that the resulting priority is
"normal" whenever the tag is absent, for both add and edit. For edit, an
absent tag leaves the stored priority untouched (updates carries no priority
key, app.py:746-752): editing a task whose priority is "low" without a tag
leaves it "low", not "normal". -/
theorem C10_cex :
    editPriorityUpdate none "low" = "low" ∧ ("low" : String) ≠ "normal" :=
  ⟨rfl, by decide⟩

/-- C10 (amended): the add and edit grammars accept an optional priority tag
(!低, !普通 or !高) between the mention (or task id) and the content; the add
handler derives priority "low" for !低, "high" for !高 and "normal" otherwise
— including when the tag is absent — while the edit handler maps a present
tag the same way but leaves the stored priority unchanged when the tag is
absent. No priority concept appears in the specification. -/
theorem C10_thm :
    addMatch "#新增 @小明 !高 買菜" = some ⟨"小明", some "!高", "買菜", none⟩
  ∧ editMatch "#修改 T-3 !低 內容" = some ⟨3, some "!低", "內容", none⟩
  ∧ addPriority (some "!低") = "low" ∧ addPriority (some "!高") = "high"
  ∧ addPriority (some "!普通") = "normal" ∧ addPriority none = "normal"
  ∧ (∀ old : String, editPriorityUpdate (some "!低") old = "low"
      ∧ editPriorityUpdate (some "!高") old = "high"
      ∧ editPriorityUpdate (some "!普通") old = "normal"
      ∧ editPriorityUpdate none old = old) := by
  refine ⟨by decide, by decide, rfl, rfl, rfl, rfl, fun old => ⟨rfl, rfl, rfl, rfl⟩⟩

end LineTodoBot
